import Mathlib

/-!
Shallow embedding of the `tezedge/redux-rs` crate (files under `src/`):
`action.rs`, `reducer.rs`, `store.rs`, `service.rs`, `effects.rs`.
Rust `u64` values are modelled as `Nat` with an explicit `% 2^64` at the one
operation where overflow matters (`ActionId::next`, a wrapping `u64` addition).
Stateful Rust code (`&mut` receivers) is modelled by explicit state passing:
an operation on the store returns the updated store, and `dispatch`
additionally returns the trace of handler invocations it performs, so that
ordering and call-argument claims can be stated as equations on the trace.
-/

namespace Redux

/-- The `u64` modulus, `2^64`. -/
def u64Mod : Nat := 2 ^ 64

/-- `src/action.rs`: `pub struct ActionId(u64)` — time in nanoseconds from
`UNIX_EPOCH`, wrapped as an opaque id. -/
structure ActionId where
  val : Nat
deriving DecidableEq, Repr

/-- `src/action.rs`: `ActionId::ZERO`. -/
def ActionId.ZERO : ActionId := ⟨0⟩

/-- `src/action.rs`: `ActionId::new_unchecked(value: u64)` — wraps a raw `u64`
without going through the issuance path. -/
def ActionId.new_unchecked (value : Nat) : ActionId := ⟨value⟩

/-- `src/action.rs`: `ActionId::next(&self, time_passed: u64)` is
`Self(self.0 + time_passed.max(1))`; the `u64` addition wraps modulo `2^64`. -/
def ActionId.next (id : ActionId) (time_passed : Nat) : ActionId :=
  ⟨(id.val + Nat.max time_passed 1) % u64Mod⟩

/-- Rust `u64::checked_sub`: `some (a - b)` when `b ≤ a`, otherwise `none`. -/
def checkedSub (a b : Nat) : Option Nat := if b ≤ a then some (a - b) else none

/-- `std::time::Duration`, viewed through its total nanosecond count (the only
observation the crate makes of it). -/
structure Duration where
  nanos : Nat
deriving DecidableEq, Repr

/-- `Duration::ZERO`. -/
def Duration.ZERO : Duration := ⟨0⟩

/-- `Duration::from_nanos`. -/
def Duration.from_nanos (v : Nat) : Duration := ⟨v⟩

/-- `src/action.rs`: `ActionId::duration_since(&self, other)` is
`Duration::from_nanos(self.0.checked_sub(other.0).unwrap_or(0))`. -/
def ActionId.duration_since (a other : ActionId) : Duration :=
  Duration.from_nanos ((checkedSub a.val other.val).getD 0)

/-- `src/action.rs`: `impl From<ActionId> for u64` returns `id.0`. -/
def ActionId.toU64 (id : ActionId) : Nat := id.val

/-- `src/action.rs`: `pub struct ActionWithMeta<Action> { id, action }`. -/
structure ActionWithMeta (Action : Type) where
  id : ActionId
  action : Action

/-- `src/action.rs`: `ActionWithMeta::time_as_nanos` is `self.id.into()`. -/
def ActionWithMeta.time_as_nanos {Action : Type} (a : ActionWithMeta Action) : Nat :=
  a.id.toU64

/-- `src/action.rs`: `ActionWithMeta::duration_since_epoch`. -/
def ActionWithMeta.duration_since_epoch {Action : Type} (a : ActionWithMeta Action) :
    Duration :=
  Duration.from_nanos a.time_as_nanos

/-- `src/action.rs`: `ActionWithMeta::duration_since`. -/
def ActionWithMeta.duration_since {Action : Type} (a other : ActionWithMeta Action) :
    Duration :=
  a.id.duration_since other.id

/-- C2 counterexample: at prev = `2^64 - 1` (a valid `u64` `ActionId`) and
elapsed t = 0, the wrapping 64-bit addition in `ActionId::next` yields the id 0,
which is not strictly greater than prev — the claim fails at the overflow
boundary. -/
theorem actionId_next_not_increasing_at_u64_max :
    ¬ (ActionId.new_unchecked (2 ^ 64 - 1)).val
      < ((ActionId.new_unchecked (2 ^ 64 - 1)).next 0).val := by
  decide

/-- C2 (amended): for every previous `ActionId` p and elapsed value t (including
t = 0), provided the 64-bit addition does not overflow
(`p.val + max t 1 < 2^64`, the spec's stated overflow assumption), the next
issued id is strictly greater than p; repeated issuance therefore yields a
strictly increasing sequence while ids stay below `2^64`, even when the clock
reports zero or decreasing elapsed time. -/
theorem actionId_next_strictly_increasing (p : ActionId) (t : Nat)
    (h : p.val + Nat.max t 1 < u64Mod) : p.val < (p.next t).val := by
  have h1 : (p.next t).val = p.val + Nat.max t 1 := by
    simp [ActionId.next, Nat.mod_eq_of_lt h]
  have h2 : 1 ≤ Nat.max t 1 := Nat.le_max_right t 1
  omega

/-- Witness for C2's amended theorem at p = 100, t = 0. -/
theorem actionId_next_strictly_increasing_witness :
    (100 + Nat.max 0 1 < u64Mod) ∧
      (ActionId.new_unchecked 100).val < ((ActionId.new_unchecked 100).next 0).val :=
  ⟨by decide, actionId_next_strictly_increasing (ActionId.new_unchecked 100) 0 (by decide)⟩

/-- C3: for every previous `ActionId` with numeric value p and elapsed value t,
as long as the 64-bit value does not overflow (the stated assumption: overflow
is not defensively handled), `ActionId::next` returns the id with numeric value
`p + max(t, 1)`. -/
theorem actionId_next_value (p : ActionId) (t : Nat)
    (h : p.val + Nat.max t 1 < u64Mod) : (p.next t).val = p.val + Nat.max t 1 := by
  simp [ActionId.next, Nat.mod_eq_of_lt h]

/-- Witness for C3 at p = 10, t = 7: the next id has value 17. -/
theorem actionId_next_value_witness :
    (10 + Nat.max 7 1 < u64Mod) ∧
      ((ActionId.new_unchecked 10).next 7).val = 10 + Nat.max 7 1 :=
  ⟨by decide, actionId_next_value (ActionId.new_unchecked 10) 7 (by decide)⟩

/-- C4: `duration_since(a, b)` returns the duration of the non-negative
(truncated) difference `a - b` in nanoseconds, and returns `Duration::ZERO`
whenever a's numeric value is at most b's; being total, it never signals an
error, and a `Duration` carries a `Nat`, so it is never negative. -/
theorem actionId_duration_since_saturating (a b : ActionId) :
    a.duration_since b = Duration.from_nanos (a.val - b.val) ∧
      (a.val ≤ b.val → a.duration_since b = Duration.ZERO) := by
  constructor
  · by_cases h : b.val ≤ a.val
    · simp [ActionId.duration_since, checkedSub, h]
    · have h0 : a.val - b.val = 0 := Nat.sub_eq_zero_of_le (Nat.le_of_not_le h)
      simp [ActionId.duration_since, checkedSub, h, h0, Duration.from_nanos]
  · intro h
    have h0 : a.val - b.val = 0 := Nat.sub_eq_zero_of_le h
    by_cases hb : b.val ≤ a.val
    · simp [ActionId.duration_since, checkedSub, hb, h0, Duration.from_nanos,
        Duration.ZERO]
    · simp [ActionId.duration_since, checkedSub, hb, Duration.from_nanos,
        Duration.ZERO]

/-- Witness for C4 at a = 3, b = 5 (a ≤ b, clamped to zero). -/
theorem actionId_duration_since_saturating_witness :
    (ActionId.new_unchecked 3).duration_since (ActionId.new_unchecked 5)
      = Duration.ZERO :=
  (actionId_duration_since_saturating (ActionId.new_unchecked 3)
    (ActionId.new_unchecked 5)).2 (by decide)

/-- C10: converting `ActionId::new_unchecked(v)` back to `u64` yields v for every
64-bit value v, and `ActionWithMeta::time_as_nanos` returns exactly the numeric
value of its id. -/
theorem actionId_roundtrip_and_time_as_nanos {Action : Type} (v : Nat)
    (_h : v < u64Mod) (aw : ActionWithMeta Action) :
    (ActionId.new_unchecked v).toU64 = v ∧ aw.time_as_nanos = aw.id.val :=
  ⟨rfl, rfl⟩

/-- Witness for C10 at v = 42. -/
theorem actionId_roundtrip_and_time_as_nanos_witness :
    (42 < u64Mod) ∧
      ((ActionId.new_unchecked 42).toU64 = 42 ∧
        (ActionWithMeta.mk (ActionId.new_unchecked 42) ()).time_as_nanos
          = (ActionId.new_unchecked 42).val) :=
  ⟨by decide, actionId_roundtrip_and_time_as_nanos 42 (by decide)
    (ActionWithMeta.mk (ActionId.new_unchecked 42) ())⟩

/-- `src/reducer.rs`: `pub type Reducer<State, Action> =
fn(&mut State, &ActionWithMeta<Action>)`; in-place mutation of the state is
modelled as returning the updated state. -/
def Reducer (State Action : Type) : Type := State → ActionWithMeta Action → State

/-- `src/reducer.rs`: the `chain_reducers!` macro for two reducers expands to
`r1(state, action); r2(state, action)` — sequential application, the second
reducer seeing the state as mutated by the first, both receiving the identical
action. -/
def chain_reducers {State Action : Type} (r1 r2 : Reducer State Action) :
    Reducer State Action :=
  fun s a => r2 (r1 s a) a

/-- `src/store.rs`: `StateWrapper<State>` — wraps the state; immutable borrow
through `get`, and the non-`pub` `get_mut` is only reachable from the reducer
call inside `dispatch_reducer`. -/
structure StateWrapper (State : Type) where
  inner : State

/-- `src/store.rs`: `StateWrapper::get` — immutable reference to the state. -/
def StateWrapper.get {State : Type} (w : StateWrapper State) : State := w.inner

/-- `src/store.rs`: writing through the mutable borrow returned by the private
`StateWrapper::get_mut`. -/
def StateWrapper.put {State : Type} (_w : StateWrapper State) (s : State) :
    StateWrapper State := ⟨s⟩

/-- `src/store.rs`: `Store<State, Service, Action>` with fields `reducer`,
`state`, `service`, `middlewares`, `subscriptions`. Middleware and subscription
handlers are caller-supplied opaque code; they are modelled by the opaque type
parameters `M` and `B`, and `dispatch` records in a trace which of them it
invokes, in what order, with which arguments. The reducer field is modelled
from its call site `(&self.reducer)(self.state.get_mut(), action)`, which
applies it to the state and the dispatched action of the store's action type
`A`. -/
structure Store (State Service A M B : Type) where
  reducer : State → A → State
  state : StateWrapper State
  service : Service
  middlewares : List M
  subscriptions : List B

/-- One handler invocation performed during a dispatch: the reducer call (with
the state before and after), a subscription call (with the state it is shown),
or a middleware call (with the state the store holds at that point and the
dispatched action). -/
inductive Event (State A M B : Type) where
  | reduced (pre : State) (a : A) (post : State)
  | sub (handler : B) (st : State)
  | mw (handler : M) (st : State) (a : A)

/-- `src/store.rs`: `Store::new(reducer, service, initial_state)`. -/
def Store.new {State Service A M B : Type} (reducer : State → A → State)
    (service : Service) (initial_state : State) : Store State Service A M B :=
  ⟨reducer, ⟨initial_state⟩, service, [], []⟩

/-- `src/store.rs`: `Store::state(&self) -> &State` — `self.state.get()`. -/
def Store.currentState {State Service A M B : Type}
    (s : Store State Service A M B) : State := s.state.get

/-- `src/store.rs`: `Store::service(&mut self) -> &mut Service`; a write
through the returned mutable borrow updates only the `service` field. -/
def Store.withService {State Service A M B : Type}
    (s : Store State Service A M B) (v : Service) : Store State Service A M B :=
  { s with service := v }

/-- `src/store.rs`: `Store::dispatch_subscriptions(&self)` — calls every
subscription, in order, with `self.state()` (an immutable reference); `&self`
receiver, so the store is unchanged and only the trace is produced. -/
def Store.dispatch_subscriptions {State Service A M B : Type}
    (s : Store State Service A M B) : List (Event State A M B) :=
  s.subscriptions.map (fun c => Event.sub c s.state.get)

/-- `src/store.rs`: `Store::dispatch_reducer(&mut self, action)` — runs the
reducer on `self.state.get_mut()` and the action, then runs
`dispatch_subscriptions`. -/
def Store.dispatch_reducer {State Service A M B : Type}
    (s : Store State Service A M B) (a : A) :
    Store State Service A M B × List (Event State A M B) :=
  let s1 := { s with state := s.state.put (s.reducer s.state.get a) }
  (s1, Event.reduced s.state.get a s1.state.get :: s1.dispatch_subscriptions)

/-- `src/store.rs`: `Store::dispatch(&mut self, action)` — runs
`dispatch_reducer`, then calls each middleware `self.middlewares[i](self,
&action)` in order with the same action. -/
def Store.dispatch {State Service A M B : Type}
    (s : Store State Service A M B) (a : A) :
    Store State Service A M B × List (Event State A M B) :=
  let p := s.dispatch_reducer a
  (p.1, p.2 ++ p.1.middlewares.map (fun m => Event.mw m p.1.state.get a))

/-- `src/store.rs`: `Store::subscribe(&mut self, callback)` — pushes the
callback onto `subscriptions`. -/
def Store.subscribe {State Service A M B : Type}
    (s : Store State Service A M B) (callback : B) : Store State Service A M B :=
  { s with subscriptions := s.subscriptions ++ [callback] }

/-- `src/store.rs`: `Store::add_middleware(&mut self, middleware)` — pushes the
middleware onto `middlewares`. -/
def Store.add_middleware {State Service A M B : Type}
    (s : Store State Service A M B) (middleware : M) : Store State Service A M B :=
  { s with middlewares := s.middlewares ++ [middleware] }

/-- `src/store.rs`: `Store::replace_reducer(&mut self, reducer)` — overwrites
the `reducer` field. -/
def Store.replace_reducer {State Service A M B : Type}
    (s : Store State Service A M B) (reducer : State → A → State) :
    Store State Service A M B :=
  { s with reducer := reducer }

/-- C5: for every dispatch, the reducer's mutation is fully applied before any
middleware handler runs — the trace is the reducer event first, then the
subscription events, then one middleware event per registered handler, in
registration order, each carrying the identical dispatched action the reducer
received and the post-reduction state; and the store's state after dispatch is
exactly the reducer applied to the pre-dispatch state and that action. -/
theorem dispatch_reducer_before_handlers {State Service A M B : Type}
    (s : Store State Service A M B) (a : A) :
    (s.dispatch a).1.state.get = s.reducer s.state.get a ∧
      (s.dispatch a).2 =
        Event.reduced s.state.get a (s.reducer s.state.get a) ::
          (s.subscriptions.map (fun c => Event.sub c (s.reducer s.state.get a)) ++
            s.middlewares.map
              (fun m => Event.mw m (s.reducer s.state.get a) a)) := by
  constructor
  · rfl
  · simp [Store.dispatch, Store.dispatch_reducer, Store.dispatch_subscriptions,
      StateWrapper.get, StateWrapper.put]

/-- C9: on every dispatch, after the reducer has run and before any middleware
runs, each subscription callback is invoked exactly once, in registration
order, each shown the post-reduction state: the trace decomposes as the reducer
event, followed by one subscription event per registered callback with the
reduced state, followed by the middleware events. -/
theorem dispatch_subscriptions_after_reducer_before_middleware
    {State Service A M B : Type} (s : Store State Service A M B) (a : A) :
    (s.dispatch a).2 =
      (Event.reduced s.state.get a ((s.dispatch_reducer a).1.state.get) ::
        s.subscriptions.map
          (fun c => Event.sub c ((s.dispatch_reducer a).1.state.get))) ++
        s.middlewares.map
          (fun m => Event.mw m ((s.dispatch_reducer a).1.state.get) a) := by
  simp [Store.dispatch, Store.dispatch_reducer, Store.dispatch_subscriptions,
    StateWrapper.get, StateWrapper.put]

/-- C6: mutable access to the state is granted only to the reducer during a
dispatch — `state()` is a pure read of the state, `service()` writes touch only
the service field, and `subscribe`, `add_middleware`, `replace_reducer` leave
the state unchanged; the only state change a dispatch performs is the reducer's
own application, and subscriptions are shown the state value read-only (the
store they run against is unchanged). -/
theorem state_mutation_only_in_reducer {State Service A M B : Type}
    (s : Store State Service A M B) (c : B) (m : M) (r : State → A → State)
    (v : Service) (a : A) :
    s.currentState = s.state.get ∧
      (s.withService v).state = s.state ∧
      (s.subscribe c).state = s.state ∧
      (s.add_middleware m).state = s.state ∧
      (s.replace_reducer r).state = s.state ∧
      (s.dispatch a).1.state.get = s.reducer s.state.get a :=
  ⟨rfl, rfl, rfl, rfl, rfl, rfl⟩

/-- A reducer on `Nat` state that keeps the state unchanged. -/
def keepReducer : Nat → Nat → Nat := fun s _ => s

/-- A reducer on `Nat` state that increments the state. -/
def succReducer : Nat → Nat → Nat := fun _s a => a + 1

/-- A concrete store over `Nat` state, unit service, `Nat` actions, and `Nat`
tags for middleware and subscription handlers, holding `keepReducer`. -/
def demoStore : Store Nat Unit Nat Nat Nat := Store.new keepReducer () 0

/-- C7 counterexample: the store's public interface does change the handlers
after construction — `replace_reducer` installs a different reducer (the store
then reduces differently on the same input), and `add_middleware` changes the
set of middleware handlers. -/
theorem replace_reducer_changes_reducer :
    ((demoStore.replace_reducer succReducer).reducer 0 0 ≠ demoStore.reducer 0 0) ∧
      (demoStore.add_middleware 7).middlewares ≠ demoStore.middlewares := by
  constructor
  · decide
  · decide

/-- C7 (amended): the reducer and the handler lists are mutable after
construction — `replace_reducer` installs its argument as the new reducer,
`add_middleware` appends its argument to the middleware list, and `subscribe`
appends to the subscription list; each of these changes only the named field
(the state and service are untouched, and the other handler fields are left
intact), and no operation removes a registered handler — service writes and
dispatch also leave the handler lists and the reducer unchanged. -/
theorem store_handler_mutation_interface {State Service A M B : Type}
    (s : Store State Service A M B) (r : State → A → State) (m : M) (c : B)
    (v : Service) (a : A) :
    ((s.replace_reducer r).reducer = r ∧
      (s.replace_reducer r).state = s.state ∧
      (s.replace_reducer r).service = s.service ∧
      (s.replace_reducer r).middlewares = s.middlewares ∧
      (s.replace_reducer r).subscriptions = s.subscriptions) ∧
      ((s.add_middleware m).middlewares = s.middlewares ++ [m] ∧
        (s.add_middleware m).state = s.state ∧
        (s.add_middleware m).service = s.service ∧
        (s.add_middleware m).reducer = s.reducer ∧
        (s.add_middleware m).subscriptions = s.subscriptions) ∧
      ((s.subscribe c).subscriptions = s.subscriptions ++ [c] ∧
        (s.subscribe c).state = s.state ∧
        (s.subscribe c).service = s.service ∧
        (s.subscribe c).reducer = s.reducer ∧
        (s.subscribe c).middlewares = s.middlewares) ∧
      ((s.withService v).middlewares = s.middlewares ∧
        (s.withService v).subscriptions = s.subscriptions ∧
        (s.withService v).reducer = s.reducer) ∧
      ((s.dispatch a).1.middlewares = s.middlewares ∧
        (s.dispatch a).1.subscriptions = s.subscriptions ∧
        (s.dispatch a).1.reducer = s.reducer) :=
  ⟨⟨rfl, rfl, rfl, rfl, rfl⟩, ⟨rfl, rfl, rfl, rfl, rfl⟩, ⟨rfl, rfl, rfl, rfl, rfl⟩,
    ⟨rfl, rfl, rfl⟩, ⟨rfl, rfl, rfl⟩⟩

/-- The `add_one` reducer of the chained-reducers scenario: adds 1 to the
state, for any action. -/
def add_one {Action : Type} : Reducer Nat Action := fun s _ => s + 1

/-- The `add_two` reducer of the chained-reducers scenario: adds 2 to the
state, for any action. -/
def add_two {Action : Type} : Reducer Nat Action := fun s _ => s + 2

/-- C8: chaining `add_one` then `add_two` with `chain_reducers` applies
`add_one` first and `add_two` second, the latter seeing the state produced by
the former and both receiving the identical action; dispatching any action from
state 0 on a store holding the chained reducer yields state 3. -/
theorem chain_reducers_add_one_add_two {Action : Type} (s0 : Nat)
    (a : ActionWithMeta Action) :
    chain_reducers add_one add_two s0 a = add_two (add_one s0 a) a ∧
      chain_reducers add_one add_two 0 a = 3 ∧
      ((Store.new (chain_reducers add_one add_two) () 0 :
          Store Nat Unit (ActionWithMeta Action) Unit Unit).dispatch a).1.state.get
        = 3 :=
  ⟨rfl, rfl, rfl⟩

/-- Modelled from the spec: the monotonic-clock `Store` variant whose
`dispatch` stamps actions (spec §2, §4.4 `Stamping`). Its declarations are
under `src/` — `TimeService::monotonic_time` in `service.rs`, the
`Effects`/handler type in `effects.rs`, `ActionId::next` in `action.rs` (
`pub(crate)`, with no caller in `src/`), `Reducer` over `ActionWithMeta` in
`reducer.rs` — but the store that wires them together is missing from `src/`
(the `store.rs` present is the earlier subscription variant without stamping).
The store owns the state, the reducer, the effect handlers (opaque tags `E`),
the last-issued `ActionId`, and the last recorded monotonic instant in
nanoseconds. -/
structure TimedStore (State A E : Type) where
  state : State
  reducer : State → ActionWithMeta A → State
  effects : List E
  last_action_id : ActionId
  last_instant : Nat

/-- One handler invocation of the timed store's dispatch: the reducer call or
an effect-handler call, each recording the stamped action it received. -/
inductive TEvent (A E : Type) where
  | reduced (a : ActionWithMeta A)
  | effect (handler : E) (a : ActionWithMeta A)

/-- Modelled from the spec: `dispatch(action)` of the monotonic-clock variant
(spec §4.4): the store asks the service for the current monotonic instant
(`now`, the value `TimeService::monotonic_time` returns, passed explicitly),
computes the elapsed time since the last recorded instant (clock anomalies
saturate to zero per spec §7), advances the last-issued `ActionId` per §4.1
(`ActionId::next`), constructs the stamped `ActionWithMeta`, feeds it to the
reducer, then feeds the same stamped action to every effect handler. -/
def TimedStore.dispatch {State A E : Type} (s : TimedStore State A E) (a : A)
    (now : Nat) : TimedStore State A E × List (TEvent A E) :=
  let elapsed := now - s.last_instant
  let id := s.last_action_id.next elapsed
  let stamped : ActionWithMeta A := ⟨id, a⟩
  ({ s with
      state := s.reducer s.state stamped
      last_action_id := id
      last_instant := now },
    TEvent.reduced stamped :: s.effects.map (fun e => TEvent.effect e stamped))

/-- C1: on every `dispatch(action)`, the store computes the elapsed time from
the monotonic instant `now` it obtains from its service, advances its
last-issued `ActionId` via `ActionId::next`, records `now`, and wraps the
action in an `ActionWithMeta` carrying the new id; the reducer is applied to
exactly this stamped action (before any effect runs — the reducer event heads
the trace), and every effect handler receives the same stamped action, not the
raw action. -/
theorem timed_dispatch_stamps_action {State A E : Type}
    (s : TimedStore State A E) (a : A) (now : Nat) :
    (s.dispatch a now).1.last_action_id
        = s.last_action_id.next (now - s.last_instant) ∧
      (s.dispatch a now).1.last_instant = now ∧
      (s.dispatch a now).1.state
        = s.reducer s.state ⟨s.last_action_id.next (now - s.last_instant), a⟩ ∧
      (s.dispatch a now).2
        = TEvent.reduced ⟨s.last_action_id.next (now - s.last_instant), a⟩ ::
            s.effects.map
              (fun e =>
                TEvent.effect e ⟨s.last_action_id.next (now - s.last_instant), a⟩) :=
  ⟨rfl, rfl, rfl, rfl⟩

end Redux
